import Mathlib

/-!
Verification development for the VTK file handler of PyGeM
(src/pygem/vtkhandler.py).

The handler is a thin adapter over an external visualization toolkit: it
reads the point coordinates of a mesh file into a table, writes a table of
coordinates back into a previously parsed mesh, and offers a static
triangulated plot and an interactive render.

Shallow embedding choices:

* the file system is a map from path strings to optional meshes; the
  external toolkit reader and writer are modelled as faithful (reading a
  path returns exactly the mesh last written there);
* a mesh holds a list of 3-tuples of rational coordinates (the stand-in
  for the toolkit floating-point coordinates, on which the handler only
  copies and never computes), a connectivity list of cells (each a list of
  point indices) and an opaque bag of scalar and vector fields;
* Python values passed as filenames are either strings or some non-string
  value, which is all the base file handler checks distinguish;
* operations are total functions that also return the updated handler
  state and file system, with an Except value for the raised exceptions;
  an error result models a raised Python exception and, by construction,
  produces no file output beyond the state explicitly returned.
-/

/-- Exceptions that the handler operations can raise. -/
inductive Err where
  | typeErr
  | valueErr
  | emptyInfile
  | ioErr
  | indexErr
deriving DecidableEq, Repr

/-- Invalid-argument errors: wrong path type or wrong file extension. -/
def Err.isInvalidArgument : Err → Bool
  | Err.typeErr => true
  | Err.valueErr => true
  | _ => false

/-- Precondition errors: write attempted with no prior parse. -/
def Err.isPrecondition : Err → Bool
  | Err.emptyInfile => true
  | _ => false

/-- Equality of Except values is decidable when it is on both sides. -/
instance {ε α : Type} [DecidableEq ε] [DecidableEq α] : DecidableEq (Except ε α) :=
  fun x y =>
  match x, y with
  | Except.ok a, Except.ok b =>
    match decEq a b with
    | isTrue h => isTrue (h ▸ rfl)
    | isFalse h => isFalse (fun hc => h (Except.ok.inj hc))
  | Except.error a, Except.error b =>
    match decEq a b with
    | isTrue h => isTrue (h ▸ rfl)
    | isFalse h => isFalse (fun hc => h (Except.error.inj hc))
  | Except.ok _, Except.error _ => isFalse (fun hc => Except.noConfusion hc)
  | Except.error _, Except.ok _ => isFalse (fun hc => Except.noConfusion hc)

/-- A Python value passed as a filename: a string, or anything else. -/
inductive PyVal where
  | str (s : String)
  | notStr
deriving DecidableEq, Repr

/-- A mesh as held by the toolkit: ordered points, cell connectivity
(each cell a list of point indices) and an opaque bag of fields. -/
structure VtkMesh where
  points : List (ℚ × ℚ × ℚ)
  cells : List (List Nat)
  fields : List (String × List ℚ)
deriving DecidableEq, Repr

/-- The file system seen through the toolkit reader and writer. -/
def FileSystem : Type := String → Option VtkMesh

/-- Handler state: the registered extension and the recorded input and
output paths (vtkhandler.py cvar docs). -/
structure HandlerState where
  extension : String
  infile : Option String
  outfile : Option String
deriving DecidableEq, Repr

/-- State of a fresh VtkHandler: extension ".vtk", no recorded paths.
Modelled from the spec: FileHandler init is not in src/; the spec says the
handler state holds the last-used input and output paths, required
non-null before a write, and the registered extension equals ".vtk". -/
def initState : HandlerState :=
  { extension := ".vtk", infile := none, outfile := none }

/-- Modelled from the spec: base collaborator check, fails unless the path
is a string-like value (filehandler.py is not in src/). -/
def checkFilenameType : PyVal → Except Err String
  | PyVal.str s => Except.ok s
  | PyVal.notStr => Except.error Err.typeErr

/-- Suffix test on path strings, by characters: the Python endswith. -/
def strEndsWith (s ext : String) : Bool :=
  ext.data.isSuffixOf s.data

/-- Modelled from the spec: base collaborator check, fails unless the path
suffix matches the registered extension (filehandler.py is not in src/). -/
def checkExtension (ext s : String) : Except Err Unit :=
  if strEndsWith s ext then Except.ok () else Except.error Err.valueErr

/-- Modelled from the spec: base collaborator check, fails if no input
source has been recorded yet (filehandler.py is not in src/). -/
def checkInfileInstantiation : Option String → Except Err String
  | some s => Except.ok s
  | none => Except.error Err.emptyInfile

/-- The rows of the coordinate table built by parse: row i is the list
[x, y, z] of the coordinates of point i, in index order. -/
def rowsOfPoints (ps : List (ℚ × ℚ × ℚ)) : List (List ℚ) :=
  ps.map (fun p => [p.1, p.2.1, p.2.2])

/-- VtkHandler.parse: validate the filename type and extension, record the
path as infile, read the mesh with the dataset reader and return the
n-points-by-3 coordinate table. A missing or unreadable file is a
toolkit-level I/O failure, propagated uncaught. The returned state is the
handler state after the call, also when an exception is raised. -/
def parse (fs : FileSystem) (st : HandlerState) (filename : PyVal) :
    HandlerState × Except Err (List (List ℚ)) :=
  match checkFilenameType filename with
  | Except.error e => (st, Except.error e)
  | Except.ok s =>
    match checkExtension st.extension s with
    | Except.error e => (st, Except.error e)
    | Except.ok _ =>
      let st1 : HandlerState := { st with infile := some s }
      match fs s with
      | none => (st1, Except.error Err.ioErr)
      | some data => (st1, Except.ok (rowsOfPoints data.points))

/-- Reading row i of the table as a point: mesh_points[i, :] handed to
InsertNextPoint. A missing row raises an index error; a row that is not
three numbers cannot be a point and raises a type error. -/
def getRow (m : List (List ℚ)) (i : Nat) : Except Err (ℚ × ℚ × ℚ) :=
  match m.get? i with
  | none => Except.error Err.indexErr
  | some [x, y, z] => Except.ok (x, y, z)
  | some _ => Except.error Err.typeErr

/-- The point-copy loop of write: for i in range(n) insert row i of the
table as the next point. The first failing access aborts the loop. -/
def copyRows (m : List (List ℚ)) : Nat → Except Err (List (ℚ × ℚ × ℚ))
  | 0 => Except.ok []
  | Nat.succ n =>
    match copyRows m n with
    | Except.error e => Except.error e
    | Except.ok ps =>
      match getRow m n with
      | Except.error e => Except.error e
      | Except.ok p => Except.ok (ps ++ [p])

/-- VtkHandler.write: validate the filename type and extension, require a
recorded infile, record the path as outfile, re-read the original mesh,
replace its points by the first n-points rows of the table and write the
result to the output path. The returned file system and state are those
after the call, also when an exception is raised; an error result writes
no file. -/
def write (fs : FileSystem) (st : HandlerState) (meshPoints : List (List ℚ))
    (filename : PyVal) : FileSystem × HandlerState × Except Err Unit :=
  match checkFilenameType filename with
  | Except.error e => (fs, st, Except.error e)
  | Except.ok s =>
    match checkExtension st.extension s with
    | Except.error e => (fs, st, Except.error e)
    | Except.ok _ =>
      match checkInfileInstantiation st.infile with
      | Except.error e => (fs, st, Except.error e)
      | Except.ok inf =>
        let st1 : HandlerState := { st with outfile := some s }
        match fs inf with
        | none => (fs, st1, Except.error Err.ioErr)
        | some data =>
          match copyRows meshPoints data.points.length with
          | Except.error e => (fs, st1, Except.error e)
          | Except.ok ps =>
            let newData : VtkMesh := { data with points := ps }
            (fun p => if p = s then some newData else fs p, st1, Except.ok ())

/-- GetPointId j on a cell: the toolkit performs no bounds check; an
out-of-range access is undefined behavior, modelled by a default of 0. -/
def getPointId (cell : List Nat) (j : Nat) : Nat :=
  cell.getD j 0

/-- GetPoint i on the point list: the toolkit performs no bounds check; an
out-of-range access is undefined behavior, modelled by a default point. -/
def getPoint (ps : List (ℚ × ℚ × ℚ)) (i : Nat) : ℚ × ℚ × ℚ :=
  ps.getD i (0, 0, 0)

/-- Characters of a string before the first dot: the Python
split on the dot character, first piece. -/
def baseNameChars : List Char → List Char
  | [] => []
  | c :: cs => if c = '.' then [] else c :: baseNameChars cs

/-- Text of a path before the first dot, as used by plot to name the
saved image. -/
def baseName (s : String) : String :=
  String.mk (baseNameChars s.data)

/-- The triangle plot builds from one cell: the positions of the first
three point-index references of the cell, whatever the cell type is. -/
def triOfCell (data : VtkMesh) (cell : List Nat) : List (ℚ × ℚ × ℚ) :=
  [getPoint data.points (getPointId cell 0),
   getPoint data.points (getPointId cell 1),
   getPoint data.points (getPointId cell 2)]

/-- Where the figure produced by plot went: shown interactively, or saved
to a png file. -/
inductive PlotOutput where
  | shown
  | savedTo (name : String)
deriving DecidableEq, Repr

/-- Result of a plot call: the polygon collection (one triangle per cell)
and what was done with the figure. Fixed styling (blue fill, black edges)
and axis auto-scaling carry no modelled state. -/
structure PlotResult where
  triangles : List (List (ℚ × ℚ × ℚ))
  output : PlotOutput
deriving DecidableEq, Repr

/-- VtkHandler.plot: resolve the path (defaulting to the recorded infile;
a user-supplied path gets only the filename-type check), read the file as
an unstructured grid, build one triangle per cell from the first three
point ids of the cell and show or save the figure. Saving names the image
after the text of the path before the first dot, with ".png" appended.
Passing no path with no recorded infile hands None to the toolkit reader,
a type error. -/
def plot (fs : FileSystem) (st : HandlerState) (plotFile : Option PyVal)
    (saveFig : Bool) : Except Err PlotResult :=
  match
    (match plotFile with
     | none =>
       match st.infile with
       | some s => Except.ok s
       | none => Except.error Err.typeErr
     | some v => checkFilenameType v : Except Err String) with
  | Except.error e => Except.error e
  | Except.ok s =>
    match fs s with
    | none => Except.error Err.ioErr
    | some data =>
      let tris := data.cells.map (triOfCell data)
      if saveFig then
        Except.ok { triangles := tris,
                    output := PlotOutput.savedTo (baseName s ++ ".png") }
      else
        Except.ok { triangles := tris, output := PlotOutput.shown }

/-- The rendering pipeline configuration show builds. The mapper, actor,
window and interactor steps carry no modelled state; the renderer keeps
the background color set on it, in the toolkit normalized RGB convention
in which white is (1, 1, 1). -/
structure RenderPipeline where
  background : ℚ × ℚ × ℚ
deriving DecidableEq, Repr

/-- VtkHandler.show (showMesh here, show being a Lean keyword): resolve
the path (defaulting to the recorded infile; a user-supplied path gets
only the filename-type check), read the file as an unstructured grid and
build the mapper, actor, renderer, window, interactor pipeline, setting
the renderer background to (20, 20, 20), then block in the event loop. -/
def showMesh (fs : FileSystem) (st : HandlerState) (showFile : Option PyVal) :
    Except Err RenderPipeline :=
  match
    (match showFile with
     | none =>
       match st.infile with
       | some s => Except.ok s
       | none => Except.error Err.typeErr
     | some v => checkFilenameType v : Except Err String) with
  | Except.error e => Except.error e
  | Except.ok s =>
    match fs s with
    | none => Except.error Err.ioErr
    | some _ => Except.ok { background := (20, 20, 20) }

/-- Modelled from the spec: a color is dark, near black, in the toolkit
normalized RGB convention in which white is (1, 1, 1), when every channel
stays strictly below the white level. -/
def IsDark (c : ℚ × ℚ × ℚ) : Prop :=
  c.1 < 1 ∧ c.2.1 < 1 ∧ c.2.2 < 1

/-- A filename the validation of parse and write rejects: a non-string
value, or a string whose suffix is not the registered extension. -/
def badPath (ext : String) : PyVal → Bool
  | PyVal.str s => !(strEndsWith s ext)
  | PyVal.notStr => true

/-- A concrete mesh with four points, two triangular cells and one field,
used by the witnesses. -/
def meshA : VtkMesh :=
  { points := [(1, 2, 3), (4, 5, 6), (0, 0, 1), (2, 0, 0)],
    cells := [[0, 1, 2], [1, 2, 3]],
    fields := [("s", [1, 2, 3, 4])] }

/-- A concrete file system holding meshA at the path "in.vtk". -/
def fsA : FileSystem := fun p => if p = "in.vtk" then some meshA else none

/-- A concrete file system holding meshA at a path with the wrong
extension, "mesh.stl". -/
def fsB : FileSystem := fun p => if p = "mesh.stl" then some meshA else none

/-- The handler state after parsing "in.vtk" from a fresh handler. -/
def stA : HandlerState :=
  { extension := ".vtk", infile := some "in.vtk", outfile := none }

/-- The coordinate table has one row per point. -/
lemma rowsOfPoints_length (ps : List (ℚ × ℚ × ℚ)) :
    (rowsOfPoints ps).length = ps.length := by
  simp [rowsOfPoints]

/-- Characterization of a successful parse of a string path. -/
lemma parse_ok_elim {fs : FileSystem} {st st1 : HandlerState} {s : String}
    {t : List (List ℚ)}
    (h : parse fs st (PyVal.str s) = (st1, Except.ok t)) :
    strEndsWith s st.extension = true ∧
      ∃ data, fs s = some data ∧ st1 = { st with infile := some s } ∧
        t = rowsOfPoints data.points := by
  unfold parse checkFilenameType at h
  by_cases hext : strEndsWith s st.extension
  · refine ⟨hext, ?_⟩
    simp only [checkExtension, hext, if_true] at h
    cases hfs : fs s with
    | none => rw [hfs] at h; simp at h
    | some data =>
      rw [hfs] at h
      simp at h
      exact ⟨data, rfl, h.1.symm, h.2.symm⟩
  · simp only [checkExtension, hext, if_false] at h
    simp at h

/-- A parse of a readable path with a matching extension succeeds and
returns the point coordinate table. -/
lemma parse_ok_intro (fs : FileSystem) (st : HandlerState) (s : String)
    (data : VtkMesh)
    (hext : strEndsWith s st.extension = true) (hfs : fs s = some data) :
    parse fs st (PyVal.str s) =
      ({ st with infile := some s }, Except.ok (rowsOfPoints data.points)) := by
  unfold parse checkFilenameType
  simp [checkExtension, hext, hfs]

/-- Reading a row of a table built from points gives back the point. -/
lemma getRow_rowsOfPoints (ps : List (ℚ × ℚ × ℚ)) (i : Nat) :
    getRow (rowsOfPoints ps) i =
      match ps.get? i with
      | some p => Except.ok p
      | none => Except.error Err.indexErr := by
  unfold getRow rowsOfPoints
  rw [List.get?_eq_getElem?, List.get?_eq_getElem?, List.getElem?_map]
  cases hp : ps[i]? with
  | none => simp
  | some p =>
    obtain ⟨x, y, z⟩ := p
    simp

/-- Copying n rows out of a table built from at least n points yields the
first n points. -/
lemma copyRows_rowsOfPoints (ps : List (ℚ × ℚ × ℚ)) (n : Nat)
    (h : n ≤ ps.length) :
    copyRows (rowsOfPoints ps) n = Except.ok (ps.take n) := by
  induction n with
  | zero => simp [copyRows]
  | succ n ih =>
    have hn : n ≤ ps.length := Nat.le_of_succ_le h
    have hlt : n < ps.length := Nat.lt_of_succ_le h
    unfold copyRows
    rw [ih hn, getRow_rowsOfPoints]
    rw [List.get?_eq_getElem?, List.getElem?_eq_getElem hlt]
    rw [List.take_succ, List.getElem?_eq_getElem hlt]
    simp

/-- A table whose rows all have three entries is the table of some point
list of the same length. -/
lemma wf_exists_points (m : List (List ℚ)) (h : ∀ r ∈ m, r.length = 3) :
    ∃ ps, m = rowsOfPoints ps := by
  induction m with
  | nil => exact ⟨[], rfl⟩
  | cons r m ih =>
    obtain ⟨ps, hps⟩ := ih (fun r hr => h r (List.mem_cons_of_mem _ hr))
    have hr : r.length = 3 := h r (List.mem_cons_self r m)
    rcases r with _ | ⟨x, _ | ⟨y, _ | ⟨z, _ | _⟩⟩⟩ <;> simp at hr
    exact ⟨(x, y, z) :: ps, by simp [rowsOfPoints, rowsOfPoints] at hps ⊢; exact hps⟩

/-- Copying more rows than the table has fails with an index error (for a
table whose present rows are well formed). -/
lemma copyRows_overrun (ps : List (ℚ × ℚ × ℚ)) (n : Nat)
    (h : ps.length < n) :
    copyRows (rowsOfPoints ps) n = Except.error Err.indexErr := by
  induction n with
  | zero => omega
  | succ n ih =>
    unfold copyRows
    rcases Nat.lt_or_ge ps.length n with hlt | hge
    · rw [ih hlt]
    · have heq : ps.length = n := Nat.le_antisymm (Nat.lt_succ_iff.mp h) hge
      rw [copyRows_rowsOfPoints ps n (Nat.le_of_eq heq.symm)]
      rw [getRow_rowsOfPoints]
      rw [List.get?_eq_getElem?, List.getElem?_eq_none (Nat.le_of_eq heq)]

/-- Copying n rows only looks at the first n rows: appending extra rows
beyond index n-1 does not change the result. -/
lemma copyRows_append (m extra : List (List ℚ)) (n : Nat)
    (h : n ≤ m.length) :
    copyRows (m ++ extra) n = copyRows m n := by
  induction n with
  | zero => rfl
  | succ n ih =>
    have hn : n ≤ m.length := Nat.le_of_succ_le h
    have hlt : n < m.length := Nat.lt_of_succ_le h
    unfold copyRows
    rw [ih hn]
    have : (m ++ extra).get? n = m.get? n := by
      rw [List.get?_eq_getElem?, List.get?_eq_getElem?,
        List.getElem?_append_left hlt]
    rw [getRow, getRow, this]

/-- A write whose checks pass and whose row copy succeeds records the
output path and writes the re-read mesh with the copied points. -/
lemma write_ok_intro (fs : FileSystem) (st : HandlerState)
    (m : List (List ℚ)) (s f : String) (data : VtkMesh)
    (ps : List (ℚ × ℚ × ℚ))
    (hext : strEndsWith s st.extension = true)
    (hin : st.infile = some f) (hfs : fs f = some data)
    (hcopy : copyRows m data.points.length = Except.ok ps) :
    write fs st m (PyVal.str s) =
      (fun p => if p = s then some { data with points := ps } else fs p,
       { st with outfile := some s }, Except.ok ()) := by
  unfold write checkFilenameType
  simp [checkExtension, hext, checkInfileInstantiation, hin, hfs, hcopy]

/-- C1: for every vtk file f and output path g, if parse returns a
coordinate table t, then writing t unmodified to g and parsing g again
returns a coordinate table equal to t (exactly, in this exact-coordinate
model, hence within floating-point tolerance). -/
theorem parse_write_parse_roundtrip
    (fs : FileSystem) (st st1 : HandlerState) (f g : String)
    (t : List (List ℚ))
    (hparse : parse fs st (PyVal.str f) = (st1, Except.ok t))
    (hg : strEndsWith g st.extension = true) :
    ∃ fs1 st2, write fs st1 t (PyVal.str g) = (fs1, st2, Except.ok ()) ∧
      ∃ st3, parse fs1 st2 (PyVal.str g) = (st3, Except.ok t) := by
  obtain ⟨hf, data, hfs, hst1, ht⟩ := parse_ok_elim hparse
  subst hst1
  subst ht
  have hcopy : copyRows (rowsOfPoints data.points) data.points.length
      = Except.ok data.points := by
    rw [copyRows_rowsOfPoints data.points data.points.length le_rfl,
      List.take_length]
  have hw := write_ok_intro fs { st with infile := some f }
      (rowsOfPoints data.points) g f data data.points hg rfl hfs hcopy
  refine ⟨_, _, hw, ?_⟩
  refine ⟨_, parse_ok_intro _ _ g { data with points := data.points } hg ?_⟩
  simp

/-- C1 witness: the round trip on the concrete file system fsA. -/
theorem parse_write_parse_roundtrip_witness :
    ∃ fs1 st2,
      write fsA stA [[1, 2, 3], [4, 5, 6], [0, 0, 1], [2, 0, 0]]
        (PyVal.str "out.vtk") = (fs1, st2, Except.ok ()) ∧
      ∃ st3, parse fs1 st2 (PyVal.str "out.vtk") =
        (st3, Except.ok [[1, 2, 3], [4, 5, 6], [0, 0, 1], [2, 0, 0]]) :=
  parse_write_parse_roundtrip fsA initState stA "in.vtk" "out.vtk"
    [[1, 2, 3], [4, 5, 6], [0, 0, 1], [2, 0, 0]] (by decide) (by decide)

/-- C2: a successfully parsed file with P points yields a table of
exactly P rows and 3 columns, row i holding the coordinates of point i. -/
theorem parse_table_shape
    (fs : FileSystem) (st st1 : HandlerState) (f : String)
    (t : List (List ℚ)) (data : VtkMesh)
    (hfs : fs f = some data)
    (hparse : parse fs st (PyVal.str f) = (st1, Except.ok t)) :
    t.length = data.points.length ∧ (∀ r ∈ t, r.length = 3) ∧
      ∀ i p, data.points.get? i = some p →
        t.get? i = some [p.1, p.2.1, p.2.2] := by
  obtain ⟨hext, data2, hfs2, hst, ht⟩ := parse_ok_elim hparse
  have hd : data = data2 := by
    have := hfs.symm.trans hfs2
    injection this
  subst hd
  subst ht
  refine ⟨rowsOfPoints_length data.points, ?_, ?_⟩
  · intro r hr
    simp only [rowsOfPoints, List.mem_map] at hr
    obtain ⟨p, _, rfl⟩ := hr
    rfl
  · intro i p hp
    rw [List.get?_eq_getElem?] at hp
    unfold rowsOfPoints
    rw [List.get?_eq_getElem?, List.getElem?_map, hp]
    rfl

/-- C2 witness: the table parsed from the four-point mesh at "in.vtk". -/
theorem parse_table_shape_witness :
    [[(1:ℚ), 2, 3], [4, 5, 6], [0, 0, 1], [2, 0, 0]].length
        = meshA.points.length ∧
      (∀ r ∈ [[(1:ℚ), 2, 3], [4, 5, 6], [0, 0, 1], [2, 0, 0]],
        r.length = 3) ∧
      ∀ i p, meshA.points.get? i = some p →
        [[(1:ℚ), 2, 3], [4, 5, 6], [0, 0, 1], [2, 0, 0]].get? i
          = some [p.1, p.2.1, p.2.2] :=
  parse_table_shape fsA initState stA "in.vtk"
    [[1, 2, 3], [4, 5, 6], [0, 0, 1], [2, 0, 0]] meshA
    (by decide) (by decide)

/-- C3: writing a table with as many rows as the source mesh has points
succeeds, and the written mesh carries row i of the table as point i, in
order, with the cell connectivity, the cell count and the fields of the
original mesh unchanged; other paths of the file system are untouched. -/
theorem write_preserves_mesh_structure
    (fs : FileSystem) (st : HandlerState) (f g : String) (data : VtkMesh)
    (m : List (List ℚ))
    (hin : st.infile = some f) (hfs : fs f = some data)
    (hg : strEndsWith g st.extension = true)
    (hwf : ∀ r ∈ m, r.length = 3) (hlen : m.length = data.points.length) :
    ∃ fs1 st1, write fs st m (PyVal.str g) = (fs1, st1, Except.ok ()) ∧
      ∃ data1, fs1 g = some data1 ∧
        data1.cells = data.cells ∧ data1.cells.length = data.cells.length ∧
        data1.fields = data.fields ∧ rowsOfPoints data1.points = m ∧
        ∀ p, p ≠ g → fs1 p = fs p := by
  obtain ⟨ps, rfl⟩ := wf_exists_points m hwf
  rw [rowsOfPoints_length] at hlen
  have hcopy : copyRows (rowsOfPoints ps) data.points.length
      = Except.ok ps := by
    rw [← hlen, copyRows_rowsOfPoints ps ps.length le_rfl, List.take_length]
  refine ⟨_, _, write_ok_intro fs st _ g f data ps hg hin hfs hcopy, ?_⟩
  refine ⟨{ data with points := ps }, ?_, rfl, rfl, rfl, rfl, ?_⟩
  · simp
  · intro p hp
    simp [hp]

/-- C3 witness: writing a translated table over the mesh at "in.vtk". -/
theorem write_preserves_mesh_structure_witness :
    ∃ fs1 st1,
      write fsA stA [[2, 2, 3], [5, 5, 6], [1, 0, 1], [3, 0, 0]]
        (PyVal.str "out.vtk") = (fs1, st1, Except.ok ()) ∧
      ∃ data1, fs1 "out.vtk" = some data1 ∧
        data1.cells = meshA.cells ∧
        data1.cells.length = meshA.cells.length ∧
        data1.fields = meshA.fields ∧
        rowsOfPoints data1.points
          = [[2, 2, 3], [5, 5, 6], [1, 0, 1], [3, 0, 0]] ∧
        ∀ p, p ≠ "out.vtk" → fs1 p = fsA p :=
  write_preserves_mesh_structure fsA stA "in.vtk" "out.vtk" meshA
    [[2, 2, 3], [5, 5, 6], [1, 0, 1], [3, 0, 0]]
    rfl (by decide) (by decide) (by decide) (by decide)

/-- C4: calling write on a handler with no recorded input source raises
the precondition error for any valid output path, and leaves the file
system (so every file) and the handler state unchanged. -/
theorem write_without_parse_errors
    (fs : FileSystem) (st : HandlerState) (m : List (List ℚ)) (g : String)
    (hin : st.infile = none)
    (hg : strEndsWith g st.extension = true) :
    write fs st m (PyVal.str g) = (fs, st, Except.error Err.emptyInfile) ∧
      Err.emptyInfile.isPrecondition = true := by
  refine ⟨?_, rfl⟩
  unfold write checkFilenameType
  simp [checkExtension, hg, checkInfileInstantiation, hin]

/-- C4 witness: write on a fresh handler with a valid output path. -/
theorem write_without_parse_errors_witness :
    write fsA initState [[1, 2, 3]] (PyVal.str "out.vtk")
        = (fsA, initState, Except.error Err.emptyInfile) ∧
      Err.emptyInfile.isPrecondition = true :=
  write_without_parse_errors fsA initState [[1, 2, 3]] "out.vtk"
    rfl (by decide)

/-- C5: a filename that is not a string, or whose suffix is not the
registered extension, makes parse and write raise an invalid-argument
error with the recorded input and output paths and the file system left
unchanged, before any I/O (the result does not depend on the file
system). -/
theorem parse_write_invalid_path
    (fs : FileSystem) (st : HandlerState) (m : List (List ℚ)) (v : PyVal)
    (hbad : badPath st.extension v = true) :
    (∃ e, parse fs st v = (st, Except.error e)
        ∧ e.isInvalidArgument = true) ∧
    (∃ e, write fs st m v = (fs, st, Except.error e)
        ∧ e.isInvalidArgument = true) := by
  cases v with
  | notStr => exact ⟨⟨Err.typeErr, rfl, rfl⟩, ⟨Err.typeErr, rfl, rfl⟩⟩
  | str s =>
    have hb : strEndsWith s st.extension = false := by
      simpa [badPath] using hbad
    constructor
    · refine ⟨Err.valueErr, ?_, rfl⟩
      unfold parse checkFilenameType
      simp [checkExtension, hb]
    · refine ⟨Err.valueErr, ?_, rfl⟩
      unfold write checkFilenameType
      simp [checkExtension, hb]

/-- C5 witness: parse and write on the wrong-extension path "in.stl". -/
theorem parse_write_invalid_path_witness :
    (∃ e, parse fsA initState (PyVal.str "in.stl")
        = (initState, Except.error e) ∧ e.isInvalidArgument = true) ∧
    (∃ e, write fsA initState [[1, 2, 3]] (PyVal.str "in.stl")
        = (fsA, initState, Except.error e)
        ∧ e.isInvalidArgument = true) :=
  parse_write_invalid_path fsA initState [[1, 2, 3]]
    (PyVal.str "in.stl") (by decide)

/-- A plot of a readable user-supplied string path succeeds, whatever its
extension, and returns one triangle per cell plus the figure action the
save flag selects. -/
lemma plot_ok_intro (fs : FileSystem) (st : HandlerState) (s : String)
    (data : VtkMesh) (sf : Bool) (hfs : fs s = some data) :
    plot fs st (some (PyVal.str s)) sf =
      Except.ok
        { triangles := data.cells.map (triOfCell data),
          output := if sf then PlotOutput.savedTo (baseName s ++ ".png")
            else PlotOutput.shown } := by
  cases sf with
  | true =>
    unfold plot checkFilenameType
    simp [hfs]
  | false =>
    unfold plot checkFilenameType
    simp [hfs]

/-- A show of a readable user-supplied string path succeeds, whatever its
extension, and builds the pipeline with background (20, 20, 20). -/
lemma showMesh_ok_intro (fs : FileSystem) (st : HandlerState) (s : String)
    (data : VtkMesh) (hfs : fs s = some data) :
    showMesh fs st (some (PyVal.str s)) =
      Except.ok { background := (20, 20, 20) } := by
  unfold showMesh checkFilenameType
  simp [hfs]

/-- C6 counterexample: plot accepts a user-supplied path with the wrong
extension ".stl" and performs the read and the save without raising any
error, so the extension check of parse and write is not invoked there. -/
theorem plot_wrong_extension_accepted :
    plot fsB initState (some (PyVal.str "mesh.stl")) true =
      Except.ok
        { triangles := [[(1, 2, 3), (4, 5, 6), (0, 0, 1)],
            [(4, 5, 6), (0, 0, 1), (2, 0, 0)]],
          output := PlotOutput.savedTo "mesh.png" } := by
  decide

/-- C6 amended: for a user-supplied path, plot and show invoke only the
filename-type check before any I/O (a non-string path raises the type
error whatever the file system holds); the extension check is not
invoked, so a readable string path with any extension proceeds to I/O
and succeeds. -/
theorem plot_show_filename_type_check_only
    (fs : FileSystem) (st : HandlerState) (sf : Bool) (s : String)
    (data : VtkMesh) (hfs : fs s = some data) :
    plot fs st (some PyVal.notStr) sf = Except.error Err.typeErr ∧
    showMesh fs st (some PyVal.notStr) = Except.error Err.typeErr ∧
    Err.typeErr.isInvalidArgument = true ∧
    (∃ r, plot fs st (some (PyVal.str s)) sf = Except.ok r) ∧
    (∃ r, showMesh fs st (some (PyVal.str s)) = Except.ok r) := by
  exact ⟨rfl, rfl, rfl, ⟨_, plot_ok_intro fs st s data sf hfs⟩,
    ⟨_, showMesh_ok_intro fs st s data hfs⟩⟩

/-- C6 amended witness: the checks of plot and show on the concrete file
system fsB, whose only file is at the wrong-extension path "mesh.stl". -/
theorem plot_show_filename_type_check_only_witness :
    plot fsB initState (some PyVal.notStr) true
        = Except.error Err.typeErr ∧
    showMesh fsB initState (some PyVal.notStr)
        = Except.error Err.typeErr ∧
    Err.typeErr.isInvalidArgument = true ∧
    (∃ r, plot fsB initState (some (PyVal.str "mesh.stl")) true
        = Except.ok r) ∧
    (∃ r, showMesh fsB initState (some (PyVal.str "mesh.stl"))
        = Except.ok r) :=
  plot_show_filename_type_check_only fsB initState true "mesh.stl" meshA
    (by decide)

/-- C7: plot builds exactly one triangle per cell, each from exactly the
first three point-index references of the cell, whatever the cell holds,
so a mesh with C cells yields C triangles of 3 vertices each. -/
theorem plot_one_triangle_per_cell
    (fs : FileSystem) (st : HandlerState) (s : String) (data : VtkMesh)
    (sf : Bool) (r : PlotResult)
    (hfs : fs s = some data)
    (hplot : plot fs st (some (PyVal.str s)) sf = Except.ok r) :
    r.triangles.length = data.cells.length ∧
    (∀ tri ∈ r.triangles, tri.length = 3) ∧
    ∀ i cell, data.cells.get? i = some cell →
      r.triangles.get? i = some [getPoint data.points (getPointId cell 0),
        getPoint data.points (getPointId cell 1),
        getPoint data.points (getPointId cell 2)] := by
  rw [plot_ok_intro fs st s data sf hfs] at hplot
  replace hplot := Except.ok.inj hplot
  subst hplot
  refine ⟨List.length_map data.cells (triOfCell data), ?_, ?_⟩
  · intro tri htri
    simp only [List.mem_map] at htri
    obtain ⟨cell, _, rfl⟩ := htri
    rfl
  · intro i cell hcell
    rw [List.get?_eq_getElem?] at hcell
    simp only
    rw [List.get?_eq_getElem?, List.getElem?_map, hcell]
    rfl

/-- C7 witness: the two-cell mesh at "in.vtk" yields two triangles. -/
theorem plot_one_triangle_per_cell_witness :
    [[((1:ℚ), (2:ℚ), (3:ℚ)), (4, 5, 6), (0, 0, 1)],
        [(4, 5, 6), (0, 0, 1), (2, 0, 0)]].length = meshA.cells.length ∧
    (∀ tri ∈ [[((1:ℚ), (2:ℚ), (3:ℚ)), (4, 5, 6), (0, 0, 1)],
        [(4, 5, 6), (0, 0, 1), (2, 0, 0)]], tri.length = 3) ∧
    ∀ i cell, meshA.cells.get? i = some cell →
      [[((1:ℚ), (2:ℚ), (3:ℚ)), (4, 5, 6), (0, 0, 1)],
          [(4, 5, 6), (0, 0, 1), (2, 0, 0)]].get? i
        = some [getPoint meshA.points (getPointId cell 0),
            getPoint meshA.points (getPointId cell 1),
            getPoint meshA.points (getPointId cell 2)] :=
  plot_one_triangle_per_cell fsA stA "in.vtk" meshA false
    { triangles := [[(1, 2, 3), (4, 5, 6), (0, 0, 1)],
        [(4, 5, 6), (0, 0, 1), (2, 0, 0)]],
      output := PlotOutput.shown }
    (by decide) (by decide)

/-- C8: with save mode on, plot does not show the figure and saves an
image named by the text of the plotted path before the first dot with
".png" appended; with save mode off it shows the figure and saves no
image. -/
theorem plot_save_flag_behavior
    (fs : FileSystem) (st : HandlerState) (s : String) (data : VtkMesh)
    (hfs : fs s = some data) :
    (∃ r, plot fs st (some (PyVal.str s)) true = Except.ok r ∧
        r.output = PlotOutput.savedTo (baseName s ++ ".png")) ∧
    (∃ r, plot fs st (some (PyVal.str s)) false = Except.ok r ∧
        r.output = PlotOutput.shown) := by
  exact ⟨⟨_, plot_ok_intro fs st s data true hfs, rfl⟩,
    ⟨_, plot_ok_intro fs st s data false hfs, rfl⟩⟩

/-- C8 witness: saving names the image "in.png" after the path "in.vtk". -/
theorem plot_save_flag_behavior_witness :
    (∃ r, plot fsA initState (some (PyVal.str "in.vtk")) true
        = Except.ok r ∧
        r.output = PlotOutput.savedTo (baseName "in.vtk" ++ ".png")) ∧
    (∃ r, plot fsA initState (some (PyVal.str "in.vtk")) false
        = Except.ok r ∧ r.output = PlotOutput.shown) :=
  plot_save_flag_behavior fsA initState "in.vtk" meshA (by decide)

/-- C9: show builds the pipeline with the renderer background set to
(20, 20, 20), which is not a dark, near-black color in the toolkit
normalized RGB convention in which white is (1, 1, 1): every channel sits
at twenty times the white level. -/
theorem show_background_not_dark
    (fs : FileSystem) (st : HandlerState) (s : String) (data : VtkMesh)
    (hfs : fs s = some data) :
    ∃ r, showMesh fs st (some (PyVal.str s)) = Except.ok r ∧
      r.background = (20, 20, 20) ∧ ¬ IsDark r.background := by
  refine ⟨_, showMesh_ok_intro fs st s data hfs, rfl, ?_⟩
  intro h
  unfold IsDark at h
  obtain ⟨h1, _⟩ := h
  norm_num at h1

/-- C9 witness: the pipeline built for the mesh at "in.vtk". -/
theorem show_background_not_dark_witness :
    ∃ r, showMesh fsA initState (some (PyVal.str "in.vtk"))
        = Except.ok r ∧
      r.background = (20, 20, 20) ∧ ¬ IsDark r.background :=
  show_background_not_dark fsA initState "in.vtk" meshA (by decide)

/-- C10: write copies exactly P rows, P the point count of the re-read
source mesh: rows at index P and beyond are ignored (appending extra rows
leaves the entire result of write unchanged and the write still
succeeds), and a table of fewer than P rows makes the copy loop fail with
an index error, leaving the file system and so every file unchanged. -/
theorem write_row_copy_semantics
    (fs : FileSystem) (st : HandlerState) (f g : String) (data : VtkMesh)
    (m extra m2 : List (List ℚ))
    (hin : st.infile = some f) (hfs : fs f = some data)
    (hg : strEndsWith g st.extension = true)
    (hwf : ∀ r ∈ m, r.length = 3) (hlen : m.length = data.points.length)
    (hwf2 : ∀ r ∈ m2, r.length = 3)
    (hlen2 : m2.length < data.points.length) :
    write fs st (m ++ extra) (PyVal.str g) = write fs st m (PyVal.str g) ∧
    (write fs st m (PyVal.str g)).2.2 = Except.ok () ∧
    write fs st m2 (PyVal.str g)
      = (fs, { st with outfile := some g }, Except.error Err.indexErr) := by
  have hc : copyRows (m ++ extra) data.points.length
      = copyRows m data.points.length :=
    copyRows_append m extra data.points.length (Nat.le_of_eq hlen.symm)
  refine ⟨?_, ?_, ?_⟩
  · unfold write checkFilenameType
    simp only [checkExtension, hg, if_true, checkInfileInstantiation, hin, hfs, hc]
  · obtain ⟨ps, rfl⟩ := wf_exists_points m hwf
    rw [rowsOfPoints_length] at hlen
    have hcopy : copyRows (rowsOfPoints ps) data.points.length
        = Except.ok ps := by
      rw [← hlen, copyRows_rowsOfPoints ps ps.length le_rfl, List.take_length]
    rw [write_ok_intro fs st (rowsOfPoints ps) g f data ps hg hin hfs hcopy]
  · obtain ⟨ps2, rfl⟩ := wf_exists_points m2 hwf2
    rw [rowsOfPoints_length] at hlen2
    have hcopy2 : copyRows (rowsOfPoints ps2) data.points.length
        = Except.error Err.indexErr :=
      copyRows_overrun ps2 data.points.length hlen2
    unfold write checkFilenameType
    simp [checkExtension, hg, checkInfileInstantiation, hin, hfs, hcopy2]

/-- C10 witness: over the four-point mesh at "in.vtk", a fifth table row
is ignored and a one-row table fails with the index error. -/
theorem write_row_copy_semantics_witness :
    write fsA stA ([[2, 2, 3], [5, 5, 6], [1, 0, 1], [3, 0, 0]] ++ [[9, 9, 9]])
        (PyVal.str "out.vtk")
      = write fsA stA [[2, 2, 3], [5, 5, 6], [1, 0, 1], [3, 0, 0]]
        (PyVal.str "out.vtk") ∧
    (write fsA stA [[2, 2, 3], [5, 5, 6], [1, 0, 1], [3, 0, 0]]
        (PyVal.str "out.vtk")).2.2 = Except.ok () ∧
    write fsA stA [[1, 2, 3]] (PyVal.str "out.vtk")
      = (fsA, { stA with outfile := some "out.vtk" },
         Except.error Err.indexErr) :=
  write_row_copy_semantics fsA stA "in.vtk" "out.vtk" meshA
    [[2, 2, 3], [5, 5, 6], [1, 0, 1], [3, 0, 0]] [[9, 9, 9]] [[1, 2, 3]]
    rfl (by decide) (by decide) (by decide) (by decide) (by decide)
    (by decide)
